import Mathlib

namespace Wifiphisher

/-- Frames are opaque to the manager; we model them as natural numbers. -/
abbrev Frame := Nat

/-- The shared data dictionary handed to every extension constructor. -/
abbrev SharedData := List (String × String)

/-- A Python exception value: its class name and its message. -/
structure PyError where
  kind : String
  msg : String
deriving Repr, DecidableEq

/-- An extension object, as required by the ExtensionManager contract:
`get_packet` processes one captured packet and returns the packets to send
(it may raise), `send_output` returns the log lines to output (Python may
return None, modelled as `none`). `ident` is the extension's name. -/
structure Plugin where
  ident : String
  get_packet : Frame → Except PyError (List Frame)
  send_output : Option (List String)

/-- A plugin constructor: called with the shared data, may raise. -/
abbrev Constructor := SharedData → Except PyError Plugin

/-- A Python module as seen by `getattr`: its class attributes. -/
structure PyModule where
  attrs : List (String × Constructor)

/-- Python str.title over a list of characters: an alphabetic character is
uppercased when the previous character is not alphabetic, lowercased
otherwise; non-alphabetic characters are kept. -/
def pyTitleAux : Bool → List Char → List Char
  | _, [] => []
  | prevAlpha, c :: cs =>
    (if c.isAlpha then (if prevAlpha then c.toLower else c.toUpper) else c)
      :: pyTitleAux c.isAlpha cs

/-- Python str.title, used by init_extensions as `extension.title()` to turn
a module identifier into its class name. -/
def pyTitle (s : String) : String := ⟨pyTitleAux false s.data⟩

/-- Embeds importlib.import_module: looks the full module path up in the
interpreter's module environment; a missing module raises
ModuleNotFoundError. -/
def import_module (modules : List (String × PyModule)) (path : String) :
    Except PyError PyModule :=
  match modules.lookup path with
  | some m => Except.ok m
  | none => Except.error ⟨"ModuleNotFoundError", "No module named " ++ path⟩

/-- Embeds getattr(mod, name) as used on line 90 of extensions.py: a module
without the requested class raises AttributeError naming the attribute. -/
def getattr_class (m : PyModule) (name : String) : Except PyError Constructor :=
  match m.attrs.lookup name with
  | some c => Except.ok c
  | none => Except.error ⟨"AttributeError", "module has no attribute " ++ name⟩

/-- Embeds ExtensionManager.init_extensions (extensions.py lines 71-92).
For each identifier in constants.EXTENSIONS the code imports the module at
EXTENSIONS_LOADPATH + identifier, fetches the class named identifier.title(),
calls it on the shared data and appends the object to self._extensions.
The state argument is the current self._extensions list; the result is the
final self._extensions together with the exception that escaped, if any.
There is no try/except in the source: the first failure aborts the loop and
propagates, leaving the objects appended so far in place. -/
def init_extensions (modules : List (String × PyModule)) (loadpath : String) :
    List String → SharedData → List Plugin → List Plugin × Option PyError
  | [], _, state => (state, none)
  | ext :: rest, shared, state =>
    match import_module modules (loadpath ++ ext) with
    | Except.error e => (state, some e)
    | Except.ok m =>
      match getattr_class m (pyTitle ext) with
      | Except.error e => (state, some e)
      | Except.ok ctor =>
        match ctor shared with
        | Except.error e => (state, some e)
        | Except.ok obj => init_extensions modules loadpath rest shared (state ++ [obj])

/-- The loop body of ExtensionManager.get_output (lines 139-143): Python
`if m_output and len(m_output) > 0: output += m_output` skips a None result
and an empty list, and appends any other result. -/
def merge_step (output : List String) (extension : Plugin) : List String :=
  match extension.send_output with
  | none => output
  | some m_output => if m_output.length > 0 then output ++ m_output else output

/-- Embeds ExtensionManager.get_output (extensions.py lines 128-144). -/
def get_output (exts : List Plugin) : List String :=
  exts.foldl merge_step []

/-- Embeds ExtensionManager._process_packet (extensions.py lines 146-162).
The code iterates over self._extensions, calls extension.get_packet(pkt) and
appends any non-empty result to self._packets_to_send. There is no
try/except: a raising extension aborts the loop and the exception
propagates. The result is (final _packets_to_send, identifiers of the
extensions whose get_packet was invoked, the escaping exception if any). -/
def _process_packet : List Plugin → List Frame → Frame →
    List Frame × List String × Option PyError
  | [], queue, _ => (queue, [], none)
  | e :: rest, queue, pkt =>
    match e.get_packet pkt with
    | Except.error err => (queue, [e.ident], some err)
    | Except.ok received =>
      let r := _process_packet rest
        (if received.length > 0 then queue ++ received else queue) pkt
      (r.1, e.ident :: r.2.1, r.2.2)

/-- Modelled from the spec: the sequence of results returned by the ingest
(get_packet) calls on one frame, in registry order, ending at the first
plugin whose call raises. Used to compare the queue produced by
_process_packet against the plugin-then-result order the spec demands. -/
def spec_ingest_results : List Plugin → Frame → List (List Frame)
  | [], _ => []
  | e :: rest, pkt =>
    match e.get_packet pkt with
    | Except.error _ => []
    | Except.ok r => r :: spec_ingest_results rest pkt

/-- The names bound at module level by the import statements of
extensions.py (lines 5-10): importlib, threading, collections,
`import scapy.layers.dot11 as dot11`, `import scapy.arch.linux as linux`,
`import wifiphisher.common.constants as constants`. Note that `time` is
not among them, although line 216 calls time.sleep(1). -/
def module_imports : List String :=
  ["importlib", "threading", "collections", "dot11", "linux", "constants"]

/-- Python name resolution for a module-global name: a name that is not
bound by any import (nor a builtin used here) raises NameError. -/
def lookup_global (n : String) : Except PyError Unit :=
  if n ∈ module_imports then Except.ok ()
  else Except.error ⟨"NameError", "name " ++ n ++ " is not defined"⟩

/-- The loop nest of ExtensionManager._send (lines 211-215): an outer
`while self._should_continue`, whose body, when _packets_to_send is
non-empty, enters an inner `while self._should_continue` that sends every
packet of the queue on each pass. `flags` is the sequence of values read
from _should_continue at the successive while-condition checks (outer and
inner alike); the second argument records whether control is currently at
the inner loop's condition. The result is the list of frames handed to
self._socket.send, in order. -/
def send_loop (queue : List Frame) : List Bool → Bool → List Frame
  | [], _ => []
  | b :: fs, inInner =>
    if inInner then
      if b then queue ++ send_loop queue fs true
      else send_loop queue fs false
    else
      if b then
        if queue.length > 0 then send_loop queue fs true
        else send_loop queue fs false
      else []

/-- The except clause shared by _listen (lines 195-197) and _send (lines
220-222): `except:` followed by `if not self._should_continue: pass`.
Whatever the flag's value, the handler neither re-raises nor logs, so
nothing is surfaced; the conditional is vacuous and is kept vacuous here. -/
def bare_except_handler (should_continue : Bool) (_e : PyError) : Option PyError :=
  if !should_continue then none else none

/-- Outcome of one run of ExtensionManager._send: the frames offered to the
socket, how many times self._socket.close() ran, the exception that reached
the except clause (if any) and the exception the function let escape or
reported (if any). -/
structure SendResult where
  sends : List Frame
  closes : Nat
  raised : Option PyError
  surfaced : Option PyError
deriving Repr, DecidableEq

/-- Embeds ExtensionManager._send (extensions.py lines 199-222). After the
while-loop nest exits, line 216 evaluates `time.sleep(1)`: the name `time`
is resolved among the module's imports, and only if that succeeds does
line 218 run self._socket.close(). Any exception is caught by the bare
except clause. The queue is taken as a fixed snapshot of
_packets_to_send (the claims quantify over its contents);
`flag_at_catch` is the value of _should_continue when the handler runs. -/
def _send (queue : List Frame) (flags : List Bool) (flag_at_catch : Bool) :
    SendResult :=
  let sends := send_loop queue flags false
  match lookup_global "time" with
  | Except.error e => ⟨sends, 0, some e, bare_except_handler flag_at_catch e⟩
  | Except.ok _ => ⟨sends, 1, none, none⟩

/-- One iteration's interaction of _listen with the capture primitive:
dot11.sniff either hands one frame to the prn callback (_process_packet) or
itself raises (e.g. the interface went down). -/
inductive CaptureEvent where
  | frame (f : Frame)
  | captureErr (e : PyError)
deriving Repr, DecidableEq

/-- The while-loop of ExtensionManager._listen (lines 190-193): while
_should_continue, run one sniff; a frame is dispatched through
_process_packet (whose own exception propagates out of sniff), and a
capture failure propagates directly. `flags` is the sequence of values
read from _should_continue at the successive while checks. Result: final
_packets_to_send and the exception that escaped the loop, if any. -/
def listen_loop (exts : List Plugin) :
    List Bool → List CaptureEvent → List Frame → List Frame × Option PyError
  | [], _, queue => (queue, none)
  | b :: fs, events, queue =>
    if b then
      match events with
      | [] => (queue, none)
      | CaptureEvent.frame f :: evs =>
        let r := _process_packet exts queue f
        match r.2.2 with
        | some e => (r.1, some e)
        | none => listen_loop exts fs evs r.1
      | CaptureEvent.captureErr e :: _ => (queue, some e)
    else (queue, none)

/-- Outcome of one run of ExtensionManager._listen: final queue, the
exception that reached the except clause (if any) and the exception the
function let escape or reported (if any). -/
structure ListenResult where
  queue : List Frame
  raised : Option PyError
  surfaced : Option PyError
deriving Repr, DecidableEq

/-- Embeds ExtensionManager._listen (extensions.py lines 178-197): the
while/sniff loop wrapped in `try ... except: if not self._should_continue:
pass`. `flag_at_catch` is the value of _should_continue when the handler
runs. -/
def _listen (exts : List Plugin) (flags : List Bool)
    (events : List CaptureEvent) (flag_at_catch : Bool) : ListenResult :=
  match listen_loop exts flags events [] with
  | (q, none) => ⟨q, none, none⟩
  | (q, some e) => ⟨q, some e, bare_except_handler flag_at_catch e⟩

/-- The mutable attributes of an ExtensionManager object set up by __init__
(lines 40-56): _extensions = [], _interface = None, _socket = None
(modelled as whether a socket object is held), _should_continue = True,
_packets_to_send = []. The two thread objects carry no modelled state. -/
structure EMState where
  _extensions : List Plugin
  _interface : Option String
  _socket_open : Bool
  _should_continue : Bool
  _packets_to_send : List Frame

/-- The state produced by ExtensionManager.__init__ (lines 40-56). -/
def initial_EM : EMState :=
  ⟨[], none, false, true, []⟩

/-- Embeds ExtensionManager.set_interface (lines 58-69): stores the
interface name and opens an L2Socket on it. -/
def set_interface (st : EMState) (iface : String) : EMState :=
  { st with _interface := some iface, _socket_open := true }

/-- Embeds ExtensionManager.on_exit (lines 114-126): sets _should_continue
to False, then joins listen_thread and send_thread, each with the literal
timeout 5; the function body has no return statement, so it returns None
(no report of threads that are still alive). The middle component records
the join calls made, the last the returned value. -/
def on_exit (st : EMState) : EMState × List (String × Nat) × Option (List String) :=
  ({ st with _should_continue := false },
   [("listen_thread", 5), ("send_thread", 5)],
   none)

/-- One invocation of the manager, public API calls and the two loops'
state-touching steps: set_interface, init_extensions, start_extensions,
on_exit, get_output, one _process_packet dispatch driven by the listen
thread, and one pass of the send loop (which only reads the queue). -/
inductive EMOp where
  | set_iface (iface : String)
  | init_exts (modules : List (String × PyModule)) (loadpath : String)
      (extensions : List String) (shared : SharedData)
  | start_exts
  | exit_call
  | output_call
  | dispatch (pkt : Frame)
  | send_pass

/-- Effect of each operation on the manager's attributes, as in the source:
only init_extensions writes _extensions, only on_exit writes
_should_continue, only _process_packet writes _packets_to_send;
start_extensions, get_output and the send loop leave all attributes
unchanged. -/
def step (op : EMOp) (st : EMState) : EMState :=
  match op with
  | EMOp.set_iface i => set_interface st i
  | EMOp.init_exts ms lp exts sh =>
      { st with _extensions := (init_extensions ms lp exts sh st._extensions).1 }
  | EMOp.start_exts => st
  | EMOp.exit_call => (on_exit st).1
  | EMOp.output_call => st
  | EMOp.dispatch pkt =>
      { st with _packets_to_send :=
          (_process_packet st._extensions st._packets_to_send pkt).1 }
  | EMOp.send_pass => st

/-- A run of the manager: the operations applied in order. -/
def run (ops : List EMOp) (st : EMState) : EMState :=
  ops.foldl (fun s o => step o s) st

/-- A concrete extension whose get_packet raises. -/
def plugin_raises : Plugin :=
  ⟨"A", fun _ => Except.error ⟨"RuntimeError", "boom"⟩, none⟩

/-- A concrete extension whose get_packet succeeds and returns one frame. -/
def plugin_ok : Plugin :=
  ⟨"B", fun _ => Except.ok [7], some ["b-log"]⟩

/-- The plugin the demo module for identifier x constructs. -/
def pluginX : Plugin :=
  ⟨"X", fun _ => Except.ok [], some ["x1", "x2"]⟩

/-- Demo module for identifier x: holds class X whose constructor
succeeds. -/
def modX : PyModule := ⟨[("X", fun _ => Except.ok pluginX)]⟩

/-- Demo module for identifier y: exists, but has no class Y. -/
def modY : PyModule := ⟨[]⟩

/-- Demo module for identifier z: class Z's constructor raises. -/
def modZ : PyModule := ⟨[("Z", fun _ => Except.error ⟨"RuntimeError", "boom"⟩)]⟩

/-- The load path prefix, as constants.EXTENSIONS_LOADPATH. -/
def demo_loadpath : String := "wifiphisher.extensions."

/-- A demo interpreter module environment with the three demo modules. -/
def demo_modules : List (String × PyModule) :=
  [("wifiphisher.extensions.x", modX),
   ("wifiphisher.extensions.y", modY),
   ("wifiphisher.extensions.z", modZ)]

lemma run_nil (st : EMState) : run [] st = st := rfl

lemma run_cons (op : EMOp) (ops : List EMOp) (st : EMState) :
    run (op :: ops) st = run ops (step op st) := rfl

/-- The queue produced by one dispatch is the old queue with every returned
result appended, in plugin-then-result order, up to the first failure. -/
lemma process_packet_queue_eq (exts : List Plugin) (queue : List Frame)
    (pkt : Frame) :
    (_process_packet exts queue pkt).1 =
      queue ++ (spec_ingest_results exts pkt).flatten := by
  induction exts generalizing queue with
  | nil => simp [_process_packet, spec_ingest_results]
  | cons e es ih =>
    simp only [_process_packet, spec_ingest_results]
    cases h : e.get_packet pkt with
    | error err => simp
    | ok r =>
      by_cases hr : r.length > 0
      · simp only [hr, if_true, ih, List.flatten_cons, List.append_assoc]
      · have hnil : r = [] := List.length_eq_zero.mp (Nat.eq_zero_of_not_pos hr)
        simp [hr, ih, hnil]

lemma get_output_foldl (exts : List Plugin) (acc : List String) :
    exts.foldl merge_step acc =
      acc ++ (exts.map fun e => e.send_output.getD []).flatten := by
  induction exts generalizing acc with
  | nil => simp
  | cons e es ih =>
    rw [List.foldl_cons, ih]
    cases h : e.send_output with
    | none => simp [merge_step, h]
    | some m =>
      by_cases hm : m.length > 0
      · simp [merge_step, h, hm]
      · have hnil : m = [] := List.length_eq_zero.mp (Nat.eq_zero_of_not_pos hm)
        simp [merge_step, h, hnil]

lemma init_extensions_append_none (modules : List (String × PyModule))
    (lp : String) (xs ys : List String) (sh : SharedData)
    (st st' : List Plugin)
    (hxs : init_extensions modules lp xs sh st = (st', none)) :
    init_extensions modules lp (xs ++ ys) sh st =
      init_extensions modules lp ys sh st' := by
  induction xs generalizing st with
  | nil =>
    simp only [init_extensions, Prod.mk.injEq] at hxs
    rw [List.nil_append, hxs.1]
  | cons x xs ih =>
    rw [List.cons_append]
    simp only [init_extensions] at hxs ⊢
    cases him : import_module modules (lp ++ x) with
    | error e => rw [him] at hxs; simp at hxs
    | ok m =>
      rw [him] at hxs
      dsimp only at hxs ⊢
      cases hat : getattr_class m (pyTitle x) with
      | error e => rw [hat] at hxs; simp at hxs
      | ok ctor =>
        rw [hat] at hxs
        dsimp only at hxs ⊢
        cases hc : ctor sh with
        | error e => rw [hc] at hxs; simp at hxs
        | ok obj =>
          rw [hc] at hxs
          dsimp only at hxs ⊢
          exact ih _ hxs

lemma step_flag_stopped (op : EMOp) (st : EMState)
    (h : st._should_continue = false) :
    (step op st)._should_continue = false := by
  cases op <;> simp [step, set_interface, on_exit, h]

lemma step_queue_extends (op : EMOp) (st : EMState) :
    ∃ added, (step op st)._packets_to_send = st._packets_to_send ++ added := by
  cases op with
  | set_iface i => exact ⟨[], by simp [step, set_interface]⟩
  | init_exts ms lp exts sh => exact ⟨[], by simp [step]⟩
  | start_exts => exact ⟨[], by simp [step]⟩
  | exit_call => exact ⟨[], by simp [step, on_exit]⟩
  | output_call => exact ⟨[], by simp [step]⟩
  | dispatch pkt =>
      exact ⟨(spec_ingest_results st._extensions pkt).flatten,
        by simp [step, process_packet_queue_eq]⟩
  | send_pass => exact ⟨[], by simp [step]⟩

/-- Claim C1, code evidence. The claim says the Transmit Loop closes its
interface socket exactly once per run after shutdown is requested, whether
the queue was ever non-empty or always empty. On the code this fails for
every run: after the while nest exits, line 216 evaluates time.sleep(1),
but the name time is bound by no import of the module, so a NameError is
raised; the bare except clause swallows it and self._socket.close() on
line 218 is never reached, so the socket is closed zero times. -/
theorem send_closes_socket_zero_times (queue : List Frame) (flags : List Bool)
    (b : Bool) :
    (_send queue flags b).closes = 0 ∧
    (_send queue flags b).raised =
      some ⟨"NameError", "name time is not defined"⟩ := by
  constructor <;> rfl

/-- Claim C2, code evidence. The claim says a capture error raised while
_should_continue is still true is surfaced, and only errors after shutdown
are suppressed. On the code, the except clause of _listen is
`except: if not self._should_continue: pass`, whose body is a no-op for
both values of the flag, so no run of _listen ever surfaces an error,
whatever the flag's value when the handler runs. -/
theorem listen_never_surfaces_errors (exts : List Plugin) (flags : List Bool)
    (events : List CaptureEvent) (b : Bool) :
    (_listen exts flags events b).surfaced = none := by
  unfold _listen
  split <;> simp [bare_except_handler]

/-- Claim C3, counterexample. With the registry [plugin_raises, plugin_ok]
and any frame, plugin_raises's get_packet raises, and plugin_ok is never
invoked on the frame: only identifier A appears in the invocation trace,
refuting the claim that the remaining plugins are still invoked. -/
theorem process_packet_error_skips_rest_cex :
    (_process_packet [plugin_raises, plugin_ok] [] 0).2.1 = ["A"] ∧
    "B" ∉ (_process_packet [plugin_raises, plugin_ok] [] 0).2.1 := by
  refine ⟨rfl, ?_⟩
  decide

/-- Claim C3 as amended: if a plugin's get_packet raises on a frame, the
plugins before it in registry order have been invoked, the plugins after it
are NOT invoked on that frame, and the exception propagates out of
_process_packet (so the dispatch of the frame is aborted; the listen loop's
blanket except then ends packet processing). -/
theorem process_packet_error_aborts_dispatch (pre : List Plugin) (bad : Plugin)
    (post : List Plugin) (queue : List Frame) (pkt : Frame) (err : PyError)
    (hbad : bad.get_packet pkt = Except.error err)
    (hpre : ∀ e ∈ pre, ∃ r, e.get_packet pkt = Except.ok r) :
    (_process_packet (pre ++ bad :: post) queue pkt).2.1 =
        pre.map Plugin.ident ++ [bad.ident] ∧
    (_process_packet (pre ++ bad :: post) queue pkt).2.2 = some err := by
  induction pre generalizing queue with
  | nil => simp [_process_packet, hbad]
  | cons e es ih =>
    obtain ⟨r, hr⟩ := hpre e (List.mem_cons_self e es)
    have hpre' : ∀ x ∈ es, ∃ s, x.get_packet pkt = Except.ok s :=
      fun x hx => hpre x (List.mem_cons_of_mem e hx)
    obtain ⟨h1, h2⟩ := ih (if r.length > 0 then queue ++ r else queue) hpre'
    simp [_process_packet, hr, h1, h2]

/-- Witness for the amended claim C3, at a concrete registry in which the
first plugin succeeds, the second raises and the third is never invoked. -/
theorem process_packet_error_aborts_dispatch_witness :
    (_process_packet ([plugin_ok] ++ plugin_raises :: [plugin_ok]) [] 0).2.1 =
        [plugin_ok].map Plugin.ident ++ [plugin_raises.ident] ∧
    (_process_packet ([plugin_ok] ++ plugin_raises :: [plugin_ok]) [] 0).2.2 =
        some ⟨"RuntimeError", "boom"⟩ :=
  process_packet_error_aborts_dispatch [plugin_ok] plugin_raises [plugin_ok]
    [] 0 ⟨"RuntimeError", "boom"⟩ rfl
    (by intro e he; rw [List.mem_singleton] at he; subst he; exact ⟨[7], rfl⟩)

/-- Claim C4: for every captured frame and every registry, the queue after
one dispatch is the old queue with every returned get_packet result
appended exactly once, in registry (plugin) order and, within one plugin's
result, in that result's own order. -/
theorem process_packet_appends_all_results (exts : List Plugin)
    (queue : List Frame) (pkt : Frame) :
    (_process_packet exts queue pkt).1 =
      queue ++ (spec_ingest_results exts pkt).flatten :=
  process_packet_queue_eq exts queue pkt

/-- Claim C5: get_output returns the concatenation of each plugin's
send_output result in registry order, skipping None and empty results,
preserving each plugin's internal line order (a None result contributes
the same as an empty one). -/
theorem get_output_concatenates_in_order (exts : List Plugin) :
    get_output exts = (exts.map fun e => e.send_output.getD []).flatten := by
  have h := get_output_foldl exts []
  simpa [get_output] using h

/-- Claim C6, counterexample. Loading identifiers x then y against a module
environment in which y's module exists but holds no class Y raises an
AttributeError, not a PluginLoadError (no such exception type exists in the
code). -/
theorem init_extensions_not_plugin_load_error_cex :
    (init_extensions demo_modules demo_loadpath ["x", "y"] [] []).2 =
      some ⟨"AttributeError", "module has no attribute Y"⟩ ∧
    "AttributeError" ≠ "PluginLoadError" := by
  refine ⟨rfl, ?_⟩
  decide

/-- Claim C6 as amended: an identifier whose module exists but has no
matching class makes init_extensions fail by propagating the underlying
AttributeError, which names the title-cased identifier; plugins already
constructed for earlier identifiers remain in the registry and later
identifiers are not loaded. -/
theorem init_extensions_unresolvable_attribute_error
    (modules : List (String × PyModule)) (lp : String) (xs : List String)
    (y : String) (rest : List String) (sh : SharedData) (st st' : List Plugin)
    (m : PyModule)
    (hxs : init_extensions modules lp xs sh st = (st', none))
    (hmod : import_module modules (lp ++ y) = Except.ok m)
    (hattr : m.attrs.lookup (pyTitle y) = none) :
    init_extensions modules lp (xs ++ y :: rest) sh st =
      (st', some ⟨"AttributeError", "module has no attribute " ++ pyTitle y⟩) := by
  rw [init_extensions_append_none modules lp xs (y :: rest) sh st st' hxs]
  simp [init_extensions, hmod, getattr_class, hattr]

/-- Witness for the amended claim C6 at the concrete demo environment:
loading x then y stops at y with an AttributeError, keeping x's plugin. -/
theorem init_extensions_unresolvable_attribute_error_witness :
    init_extensions demo_modules demo_loadpath (["x"] ++ "y" :: []) [] [] =
      ([pluginX],
       some ⟨"AttributeError", "module has no attribute " ++ pyTitle "y"⟩) :=
  init_extensions_unresolvable_attribute_error demo_modules demo_loadpath
    ["x"] "y" [] [] [] [pluginX] modY rfl rfl rfl

/-- Claim C7, counterexample. Loading x then z, where z's constructor
raises RuntimeError: the load aborts, but the registry keeps x's plugin,
so a partial registry is exposed, and the propagated exception is the
constructor's own RuntimeError, not a PluginInitError. -/
theorem init_extensions_partial_registry_cex :
    ((init_extensions demo_modules demo_loadpath ["x", "z"] [] []).1).map
        Plugin.ident = ["X"] ∧
    (init_extensions demo_modules demo_loadpath ["x", "z"] [] []).2 =
      some ⟨"RuntimeError", "boom"⟩ ∧
    "RuntimeError" ≠ "PluginInitError" := by
  refine ⟨rfl, rfl, ?_⟩
  decide

/-- Claim C7 as amended: a constructor failure propagates the constructor's
own exception unwrapped (there is no PluginInitError), the remaining
identifiers are not loaded, but plugins constructed before the failure
remain in self._extensions: a partial registry is exposed. -/
theorem init_extensions_ctor_failure_partial_registry
    (modules : List (String × PyModule)) (lp : String) (xs : List String)
    (y : String) (rest : List String) (sh : SharedData) (st st' : List Plugin)
    (m : PyModule) (ctor : Constructor) (e : PyError)
    (hxs : init_extensions modules lp xs sh st = (st', none))
    (hmod : import_module modules (lp ++ y) = Except.ok m)
    (hattr : m.attrs.lookup (pyTitle y) = some ctor)
    (hctor : ctor sh = Except.error e) :
    init_extensions modules lp (xs ++ y :: rest) sh st = (st', some e) := by
  rw [init_extensions_append_none modules lp xs (y :: rest) sh st st' hxs]
  simp [init_extensions, hmod, getattr_class, hattr, hctor]

/-- Witness for the amended claim C7 at the concrete demo environment. -/
theorem init_extensions_ctor_failure_partial_registry_witness :
    init_extensions demo_modules demo_loadpath (["x"] ++ "z" :: []) [] [] =
      ([pluginX], some ⟨"RuntimeError", "boom"⟩) :=
  init_extensions_ctor_failure_partial_registry demo_modules demo_loadpath
    ["x"] "z" [] [] [] [pluginX] modZ
    (fun _ => Except.error ⟨"RuntimeError", "boom"⟩)
    ⟨"RuntimeError", "boom"⟩ rfl rfl rfl rfl

/-- Claim C8, counterexample. on_exit at the freshly initialized manager
returns None: it reports nothing, refuting the claim that the shutdown
join returns which loops failed to stop within the timeout. -/
theorem on_exit_returns_none_cex : (on_exit initial_EM).2.2 = none := rfl

/-- Claim C8 as amended: on_exit takes no timeout parameter; it sets the
Shutdown Flag, joins each of the two loops with a fixed 5-second timeout,
and returns None for every state, reporting nothing about loops that
failed to stop. -/
theorem on_exit_no_report (st : EMState) :
    (on_exit st).2.2 = none ∧
    (on_exit st).2.1 = [("listen_thread", 5), ("send_thread", 5)] ∧
    (on_exit st).1._should_continue = false :=
  ⟨rfl, rfl, rfl⟩

/-- Claim C9: the Shutdown Flag starts true, on_exit sets it to false, and
no sequence of manager operations run after any state in which the flag is
false ever brings it back to true. -/
theorem should_continue_never_reset (ops : List EMOp) (st : EMState)
    (h : st._should_continue = false) :
    (run ops st)._should_continue = false := by
  induction ops generalizing st with
  | nil => exact h
  | cons op ops ih => rw [run_cons]; exact ih _ (step_flag_stopped op st h)

/-- Witness for claim C9: after on_exit on the initial manager, a concrete
sequence of further calls leaves the flag false. -/
theorem should_continue_never_reset_witness :
    (run [EMOp.output_call, EMOp.send_pass, EMOp.exit_call]
        (step EMOp.exit_call initial_EM))._should_continue = false :=
  should_continue_never_reset [EMOp.output_call, EMOp.send_pass, EMOp.exit_call]
    (step EMOp.exit_call initial_EM) rfl

/-- Claim C10: no operation of the manager removes frames from
_packets_to_send: after any sequence of operations (dispatches, send
passes and all other API calls) the old queue is an initial segment of the
new one, so every previously appended frame is still present at its
original position. -/
theorem packets_to_send_monotone (ops : List EMOp) (st : EMState) :
    ∃ added, (run ops st)._packets_to_send = st._packets_to_send ++ added := by
  induction ops generalizing st with
  | nil => exact ⟨[], by simp [run_nil]⟩
  | cons op ops ih =>
    obtain ⟨a1, h1⟩ := step_queue_extends op st
    obtain ⟨a2, h2⟩ := ih (step op st)
    exact ⟨a1 ++ a2, by rw [run_cons, h2, h1, List.append_assoc]⟩

end Wifiphisher
